import Mathlib

/-
Verification of the natural-language specification of the
prop-mgmt-agent-demo2 repository against its source code.

Shallow embedding conventions:
  * Timestamps (datetime values) are modelled as integers (seconds).
  * Money and multipliers are modelled as rationals.
  * The persistence store (supabase rows accessed through app/database.py)
    is an association list from request id to a row record; an update merges
    the written fields into every row whose id matches, and is a no-op when
    no row matches, exactly as a supabase update().eq(id, rid) behaves.
  * Python dynamic failures that the source actually hits (attribute lookup
    of a method that does not exist, lookup of an undefined global name,
    assignment of an undeclared pydantic field) are modelled as explicit
    error values of type PyError; the try/except structure of each function
    is translated into matches on those values, keeping the unreachable
    success branches of the source in place.
  * External libraries that the claims do not depend on (bleach.clean,
    the EmailStr validator) are taken as function parameters.
-/

namespace PropMgmt

/-- Request lifecycle states, from RequestStatus in src/agent/crew.py. -/
inductive RequestStatus where
  | new
  | processing
  | scheduled
  | completed
  | failed
deriving DecidableEq, Repr

/-- Python runtime errors that the translated code can raise. -/
inductive PyError where
  | attributeError (msg : String)
  | nameError (msg : String)
  | valueError (msg : String)
  | maintenanceRequestError (msg : String)
deriving DecidableEq, Repr

/-- Message carried by a Python error value. -/
def PyError.msg : PyError → String
  | .attributeError m => m
  | .nameError m => m
  | .valueError m => m
  | .maintenanceRequestError m => m

/-- In-memory maintenance request object: the pydantic model
MaintenanceRequest of src/agent/crew.py lines 28-41.  Note that the model
declares no updated_at field. -/
structure MaintenanceRequest where
  id : String
  property_id : String := ""
  description : String := ""
  contact_email : String := ""
  contact_phone : Option String := none
  photo_url : Option String := none
  status : RequestStatus := .new
  priority : Option String := none
  created_at : Int := 0
  scheduled_time : Option String := none
  assigned_contractor : Option String := none
  completion_details : Option String := none
deriving DecidableEq, Repr

/-- Persisted maintenance_requests row, with the columns the code reads or
writes (src/agent/crew.py update calls and complete_request reads). -/
structure DBRecord where
  property_id : String := ""
  description : String := ""
  status : RequestStatus := .new
  priority : Option String := none
  category : Option String := none
  estimated_cost : Option ℚ := none
  scheduled_time : Option String := none
  assigned_contractor_id : Option String := none
  completion_details : Option String := none
  updated_at : Option Int := none
deriving DecidableEq, Repr

/-- The maintenance_requests table keyed by request id. -/
def DB := List (String × DBRecord)

/-- Database.fetch_one(table, filter on id) from src/app/database.py: first
row whose id matches, or none. -/
def db_fetch_one (db : DB) (rid : String) : Option DBRecord :=
  match db with
  | [] => none
  | p :: tl => if p.1 = rid then some p.2 else db_fetch_one tl rid

/-- Database.update(table, record_id, data) from src/app/database.py:
supabase update().eq(id, record_id) merges the written fields into every
matching row and is a no-op when no row matches. -/
def db_update (db : DB) (rid : String) (f : DBRecord → DBRecord) : DB :=
  match db with
  | [] => []
  | p :: tl => (if p.1 = rid then (p.1, f p.2) else p) :: db_update tl rid f

/-- Observable events emitted while an orchestrator operation runs: a
persisted status write, or an invocation of a tool. -/
inductive Event where
  | statusWrite (rid : String) (s : RequestStatus)
  | toolCall (toolName : String)
deriving DecidableEq, Repr

/-- Whether an event is a tool invocation. -/
def Event.isTool : Event → Bool
  | .toolCall _ => true
  | _ => false

/-- Fields of the result dict that crew.kickoff() would return
(src/agent/crew.py lines 144-173 read these keys with result.get). -/
structure KickoffResult where
  priority : Option String := none
  issue_type : Option String := none
  estimated_cost : Option ℚ := none
  scheduled_time : Option String := none
  contractor_name : Option String := none
  contractor_id : Option String := none
  next_steps : Option String := none
  safety_notes : Option String := none
deriving Repr

/-- Behaviour of one crew.kickoff() run: the tools the LLM agent would
invoke, and the outcome (a result dict, or an exception).  The orchestrator
never inspects this beyond the outcome value, so it is a parameter. -/
structure KickoffBehavior where
  toolCalls : List String := []
  outcome : Except PyError KickoffResult := .error (.maintenanceRequestError "kickoff failed")

/-- Evaluation of self.db.transaction() at src/agent/crew.py line 93.  The
Database class of src/app/database.py defines only initialize, fetch_one,
fetch_all, insert, update, health_check and close, so attribute lookup of
transaction raises AttributeError before the with-body runs. -/
def dbTransaction : Except PyError Unit :=
  .error (.attributeError "Database object has no attribute transaction")

/-- Structured operation result envelope returned by the public
operations. -/
structure ResultEnvelope where
  success : Bool
  error : Option String := none
  details : Option String := none
deriving DecidableEq, Repr

/-- Result of one handle_maintenance_request call: the returned envelope,
the mutated in-memory request object, the mutated store, and the emitted
events in order. -/
structure HandleOutcome where
  envelope : ResultEnvelope
  request : MaintenanceRequest
  db : DB
  events : List Event

/-- Try-block of DomiCrew.handle_maintenance_request (src/agent/crew.py
lines 89-174), translated statement by statement.  The first component is
the envelope when the block returns, or the raised error; the remaining
components are the request object, store and events at the point the block
exits (normally or by the raise). -/
def handle_try (now : Int) (kick : KickoffBehavior) (req : MaintenanceRequest) (db : DB) :
    Except PyError ResultEnvelope × MaintenanceRequest × DB × List Event :=
  match dbTransaction with
  | .error e => (.error e, req, db, [])
  | .ok _ =>
    -- request.status = RequestStatus.PROCESSING; db.update(status, updated_at)
    let req := { req with status := .processing }
    let db := db_update db req.id
      (fun r => { r with status := .processing, updated_at := some now })
    let events := [Event.statusWrite req.id .processing]
    -- result = await crew.kickoff(): the agent run invokes the tools
    let events := events ++ List.map Event.toolCall kick.toolCalls
    match kick.outcome with
    | .error e => (.error e, req, db, events)
    | .ok result =>
      -- request mutations and the SCHEDULED update of crew.py lines 147-160
      let req := { req with
        status := .scheduled,
        priority := result.priority,
        scheduled_time := result.scheduled_time,
        assigned_contractor := result.contractor_name }
      let db := db_update db req.id (fun r => { r with
        status := .scheduled,
        priority := result.priority,
        category := result.issue_type,
        estimated_cost := result.estimated_cost,
        scheduled_time := result.scheduled_time,
        assigned_contractor_id := result.contractor_id,
        updated_at := some now })
      let events := events ++ [Event.statusWrite req.id .scheduled]
      (.ok { success := true }, req, db, events)

/-- DomiCrew.handle_maintenance_request (src/agent/crew.py lines 84-188):
the try-block above, plus the except-handler of lines 176-188 which sets
the request and the stored row to FAILED and returns the generic failure
envelope. -/
def handle_maintenance_request (now : Int) (kick : KickoffBehavior)
    (req : MaintenanceRequest) (db : DB) : HandleOutcome :=
  match handle_try now kick req db with
  | (.ok env, req, db, events) =>
    { envelope := env, request := req, db := db, events := events }
  | (.error e, req, db, events) =>
    let req := { req with status := .failed }
    let db := db_update db req.id
      (fun r => { r with status := .failed, updated_at := some now })
    { envelope := { success := false,
                    error := some "Processing failed - please try again",
                    details := some (PyError.msg e) },
      request := req, db := db,
      events := events ++ [Event.statusWrite req.id .failed] }

/-- Completion report dict that completion_tool.run would return
(src/agent/crew.py lines 202-222 read these keys). -/
structure CompletionReport where
  success : Bool
  completion_report : String
deriving DecidableEq, Repr

/-- Evaluation of completion_tool.run at src/agent/crew.py line 202:
crew.py neither defines nor imports a name completion_tool (its imports
from .tools are MAINTENANCE_TOOLS and MaintenanceRequestError), so
resolving the callable raises NameError before any argument is
evaluated. -/
def completionToolRun : Except PyError CompletionReport :=
  .error (.nameError "name completion_tool is not defined")

/-- Result of one complete_request call. -/
structure CompleteOutcome where
  envelope : ResultEnvelope
  db : DB

/-- Try-block of DomiCrew.complete_request (src/agent/crew.py lines
195-222), translated statement by statement. -/
def complete_try (now : Int) (rid : String) (db : DB) :
    Except PyError (ResultEnvelope × DB) :=
  match db_fetch_one db rid with
  | none => .error (.maintenanceRequestError "Request not found")
  | some _request =>
    match completionToolRun with
    | .error e => .error e
    | .ok report =>
      if report.success then
        let db := db_update db rid (fun r => { r with
          status := .completed,
          completion_details := some report.completion_report,
          updated_at := some now })
        .ok ({ success := true }, db)
      else
        .error (.maintenanceRequestError "Failed to generate completion report")

/-- DomiCrew.complete_request (src/agent/crew.py lines 190-236): the
try-block above, plus the except-handler of lines 224-236 which writes
FAILED to the stored row and returns the generic failure envelope. -/
def complete_request (now : Int) (rid : String) (db : DB) : CompleteOutcome :=
  match complete_try now rid db with
  | .ok (env, db) => { envelope := env, db := db }
  | .error e =>
    let db := db_update db rid
      (fun r => { r with status := .failed, updated_at := some now })
    { envelope := { success := false,
                    error := some "Processing failed - please try again",
                    details := some (PyError.msg e) },
      db := db }

/-- The in-memory active_requests map of MaintenanceAgent
(src/agent/main.py line 29). -/
def ActiveMap := List (String × MaintenanceRequest)

/-- Dictionary get on the active_requests map. -/
def active_lookup (active : ActiveMap) (rid : String) : Option MaintenanceRequest :=
  match active with
  | [] => none
  | p :: tl => if p.1 = rid then some p.2 else active_lookup tl rid

/-- Replacing the entry for a request id (main.py mutates the stored
object in place, so the map afterwards holds the mutated object). -/
def active_update (active : ActiveMap) (rid : String) (req : MaintenanceRequest) : ActiveMap :=
  match active with
  | [] => []
  | p :: tl => (if p.1 = rid then (p.1, req) else p) :: active_update tl rid req

/-- Evaluation of the assignment request.updated_at = datetime.utcnow() at
src/agent/main.py line 169: the MaintenanceRequest pydantic model of
src/agent/crew.py declares no updated_at field, so pydantic raises
ValueError on the assignment.  The preceding assignment to the declared
status field has already taken effect on the shared object. -/
def pydanticSetUpdatedAt : Except PyError Unit :=
  .error (.valueError "MaintenanceRequest object has no field updated_at")

/-- Result of one cancel_request call. -/
structure CancelOutcome where
  envelope : ResultEnvelope
  active : ActiveMap

/-- MaintenanceAgent.cancel_request (src/agent/main.py lines 142-184),
translated statement by statement.  The success return of lines 172-176,
which would carry the distinguishable cancelled reason, is kept but is
unreachable because the updated_at assignment raises first. -/
def cancel_request (rid : String) (active : ActiveMap) : CancelOutcome :=
  match active_lookup active rid with
  | none =>
    { envelope := { success := false, error := some "Request not found" },
      active := active }
  | some request =>
    if request.status = .scheduled ∨ request.status = .completed then
      { envelope := { success := false,
                      error := some "Cannot cancel request in current status" },
        active := active }
    else
      -- request.status = RequestStatus.FAILED mutates the stored object
      let active := active_update active rid { request with status := .failed }
      match pydanticSetUpdatedAt with
      | .ok _ =>
        { envelope := { success := true }, active := active }
      | .error e =>
        { envelope := { success := false,
                        error := some "Failed to cancel request",
                        details := some (PyError.msg e) },
          active := active }

/-- Combined state of one tracked request: the in-memory object held in
active_requests (which handle_maintenance_request and cancel_request
mutate) and the persistence store. -/
structure SysState where
  mem : MaintenanceRequest
  db : DB

/-- One invocation of a public operation on the tracked request. -/
inductive AgentOp where
  | process (now : Int) (kick : KickoffBehavior)
  | complete (now : Int)
  | cancel

/-- Effect of one public operation on the combined state. -/
def stepOp (op : AgentOp) (s : SysState) : SysState :=
  match op with
  | .process now kick =>
    let h := handle_maintenance_request now kick s.mem s.db
    { mem := h.request, db := h.db }
  | .complete now =>
    let c := complete_request now s.mem.id s.db
    { mem := s.mem, db := c.db }
  | .cancel =>
    let c := cancel_request s.mem.id [(s.mem.id, s.mem)]
    { mem := (active_lookup c.active s.mem.id).getD s.mem, db := s.db }

/-- Running a sequence of public operations. -/
def runOps (ops : List AgentOp) (s : SysState) : SysState :=
  List.foldl (fun s op => stepOp op s) s ops

/-- Persisted status of the tracked request. -/
def dbStatus (s : SysState) : Option RequestStatus :=
  (db_fetch_one s.db s.mem.id).map (fun r => r.status)

/-- Position of a status along the NEW, PROCESSING, SCHEDULED, COMPLETED
pipeline (FAILED is off the pipeline). -/
def statusRank : RequestStatus → Nat
  | .new => 0
  | .processing => 1
  | .scheduled => 2
  | .completed => 3
  | .failed => 4

/-- The transition relation asserted by the specification: stay put, move
forward along the pipeline, or move into FAILED from a non-terminal
state. -/
def specAllowed (s t : RequestStatus) : Bool :=
  (s == t)
  || (s != .failed && t != .failed && decide (statusRank s < statusRank t))
  || (s != .completed && s != .failed && t == .failed)

/-- ISSUE_CATEGORIES of BaseMaintenanceTool (src/agent/tools.py line 27). -/
def ISSUE_CATEGORIES : List String :=
  ["plumbing", "electrical", "structural", "appliance", "hvac", "other"]

/-- PRIORITY_LEVELS of BaseMaintenanceTool (src/agent/tools.py line 28). -/
def PRIORITY_LEVELS : List String :=
  ["urgent", "high", "medium", "low"]

/-- Parsed JSON object returned by the classification backend, with the
keys the prompt of IssueClassificationTool asks for; each key may be
absent from the response. -/
structure ClassificationResponse where
  category : Option String := none
  priority : Option String := none
  estimated_hours : Option Int := none
  risk_level : Option String := none
  requires_license : Option Bool := none
  estimated_cost_range : Option String := none
deriving DecidableEq, Repr

/-- Validation portion of IssueClassificationTool._run (src/agent/tools.py
lines 82-94), as a function of the parsed backend response: the code checks
only that the keys category, priority and estimated_hours are present
(required_fields, line 85); a missing key raises ValueError, which the
except-handler converts to MaintenanceRequestError.  No membership check
against ISSUE_CATEGORIES or PRIORITY_LEVELS is performed. -/
def classification_run (resp : ClassificationResponse) : Except PyError ClassificationResponse :=
  if resp.category.isSome && resp.priority.isSome && resp.estimated_hours.isSome then
    .ok resp
  else
    .error (.maintenanceRequestError "Failed to classify issue")

/-- Lowercasing of a Python string (description.lower() at
src/agent/tools.py line 328). -/
def pyLower (s : String) : String := String.map Char.toLower s

/-- Substring test on character lists: the Python expression kw in s is
true when kw is empty or kw is a prefix of some suffix of s. -/
def listContainsSub (kw : List Char) : List Char → Bool
  | [] => kw.isEmpty
  | c :: tl => List.isPrefixOf kw (c :: tl) || listContainsSub kw tl

/-- The Python membership test kw in hay on strings. -/
def pyIn (kw hay : String) : Bool := listContainsSub kw.toList hay.toList

/-- complexity_indicators of CostEstimationTool._analyze_complexity
(src/agent/tools.py lines 318-326), with the float factors as exact
rationals. -/
def complexity_indicators : List (String × ℚ) :=
  [("emergency", 15/10), ("urgent", 13/10), ("multiple", 14/10),
   ("extensive", 14/10), ("simple", 8/10), ("minor", 7/10), ("quick", 6/10)]

/-- CostEstimationTool._analyze_complexity (src/agent/tools.py lines
312-335): starting from 1.0, multiply by the factor of every indicator
keyword contained in the lowercased description, then clamp the result
with max(0.5, min(multiplier, 2.0)). -/
def analyze_complexity (description : String) : ℚ :=
  let d := pyLower description
  let multiplier := List.foldl
    (fun m p => if pyIn p.1 d then m * p.2 else m) 1 complexity_indicators
  max (1/2) (min multiplier 2)

/-- BASE_COSTS of CostEstimationTool (src/agent/tools.py lines 252-259):
for each category the low, medium and high base cost. -/
def BASE_COSTS : List (String × (ℚ × ℚ × ℚ)) :=
  [("plumbing", (150, 500, 1500)),
   ("electrical", (200, 600, 2000)),
   ("structural", (500, 2000, 5000)),
   ("appliance", (100, 400, 1200)),
   ("hvac", (250, 800, 3000)),
   ("other", (200, 500, 1500))]

/-- BASE_COSTS.get(category, BASE_COSTS of other) at src/agent/tools.py
line 275. -/
def base_costs_get (category : String) : ℚ × ℚ × ℚ :=
  match List.find? (fun p => p.1 == category) BASE_COSTS with
  | some p => p.2
  | none => (200, 500, 1500)

/-- Rounding to two decimal places, for round(x, 2) at src/agent/tools.py
lines 296-298 and 355.  The round builtin of Python breaks exact ties to
the even digit while this rounds half up; none of the settled claims
depends on tie behaviour. -/
def round2 (q : ℚ) : ℚ := ((round (q * 100) : ℤ) : ℚ) / 100

/-- Number of words of a description: len(description.split()) at
src/agent/tools.py line 349 (split on whitespace runs, dropping empty
pieces). -/
def word_count (s : String) : Nat :=
  List.length (List.filter (fun w => !String.isEmpty w)
    (String.split s (fun c => Char.isWhitespace c)))

/-- CostEstimationTool._calculate_confidence (src/agent/tools.py lines
337-355). -/
def calculate_confidence (category : String) (description : String) : ℚ :=
  let confidence : ℚ := 7/10
  let confidence :=
    if (List.find? (fun p => p.1 == category) BASE_COSTS).isSome
    then confidence + 1/10 else confidence
  let wc := word_count description
  let confidence :=
    if 50 < wc then confidence + 1/10
    else if wc < 10 then confidence - 1/10
    else confidence
  round2 (max (3/10) (min confidence (9/10)))

/-- Success payload of CostEstimationTool._run (src/agent/tools.py lines
284-306). -/
structure CostEstimates where
  low_end : ℚ
  typical : ℚ
  high_end : ℚ
  confidence : ℚ
  complexity : ℚ
  base_category : String
  property_type : String
deriving DecidableEq, Repr

/-- CostEstimationTool._run (src/agent/tools.py lines 261-310): base costs
for the category, complexity multiplier from the description, property
factor (1.5 for luxury, else 1.0), rounded estimates and the confidence
value. -/
def cost_estimation_run (category description property_type : String) : CostEstimates :=
  let bc := base_costs_get category
  let complexity_factor := analyze_complexity description
  let property_factor : ℚ := if property_type == "luxury" then 15/10 else 1
  { low_end := round2 (bc.1 * complexity_factor * property_factor),
    typical := round2 (bc.2.1 * complexity_factor * property_factor),
    high_end := round2 (bc.2.2 * complexity_factor * property_factor),
    confidence := calculate_confidence category description,
    complexity := complexity_factor,
    base_category := category,
    property_type := property_type }

/-- Raw maintenance request data submitted to the validator
(src/app/validators.py): each field may be absent from the dict. -/
structure RequestDataInput where
  property_id : Option String := none
  description : Option String := none
  email : Option String := none
  phone : Option String := none
  urgent : Option Bool := none
deriving Repr

/-- Validated data produced by the MaintenanceRequestData pydantic model
(src/app/validators.py lines 18-48). -/
structure ParsedRequestData where
  property_id : String
  description : String
  email : String
  phone : String
  urgent : Bool
deriving DecidableEq, Repr

/-- The Python str.strip() of a string: drop whitespace from both
ends. -/
def pyStrip (s : String) : String :=
  String.mk (List.reverse (List.dropWhile (fun c => Char.isWhitespace c)
    (List.reverse (List.dropWhile (fun c => Char.isWhitespace c) s.toList))))

/-- The regex ^\+?1?\d{9,15}$ constraining the phone field
(src/app/validators.py line 26): an optional plus sign, an optional
leading one, then nine to fifteen digits. -/
def phonePatternOk (v : String) : Bool :=
  let cs := v.toList
  let cs := match cs with
    | '+' :: tl => tl
    | other => other
  let allDigits := List.all cs (fun c => Char.isDigit c)
  let n := cs.length
  allDigits && decide (9 ≤ n) &&
    (decide (n ≤ 15) ||
      (decide (n = 16) && (match cs with | c :: _ => c == '1' | [] => false)))

/-- The format_phone validator (src/app/validators.py lines 31-40): keep
the digits only; ten digits gain a plus-one prefix, more than ten gain a
plus prefix, fewer raise ValueError. -/
def format_phone (v : String) : Except String String :=
  let numbers_only := List.filter (fun c => Char.isDigit c) v.toList
  if numbers_only.length = 10 then
    .ok (String.mk ('+' :: '1' :: numbers_only))
  else if 10 < numbers_only.length then
    .ok (String.mk ('+' :: numbers_only))
  else
    .error "Invalid phone number format"

/-- Field-by-field validation performed by constructing
MaintenanceRequestData(**data) (src/app/validators.py lines 18-48) under
pydantic: one error message per failing field, in declaration order.  The
phone field is declared with Field(..., pattern=...), so an absent phone
is a missing required field.  The external bleach.clean function and the
EmailStr check are parameters. -/
def fieldErrors (emailValid : String → Bool) (clean : String → String)
    (d : RequestDataInput) : List String :=
  (match d.property_id with
   | none => ["property_id: Field required"]
   | some v =>
     if 1 ≤ v.length then []
     else ["property_id: String should have at least 1 character"]) ++
  (match d.description with
   | none => ["description: Field required"]
   | some v =>
     if v.length < 10 then
       ["description: String should have at least 10 characters"]
     else if 1000 < v.length then
       ["description: String should have at most 1000 characters"]
     else if (pyStrip (clean v)).length < 10 then
       ["description: Description must be at least 10 characters"]
     else []) ++
  (match d.email with
   | none => ["email: Field required"]
   | some v =>
     if emailValid v then []
     else ["email: value is not a valid email address"]) ++
  (match d.phone with
   | none => ["phone: Field required"]
   | some v =>
     if phonePatternOk v then
       match format_phone v with
       | .ok _ => []
       | .error m => ["phone: " ++ m]
     else ["phone: String should match pattern"])

/-- Constructing MaintenanceRequestData(**data): the validated record when
no field fails, otherwise the pydantic ValidationError carrying the field
errors. -/
def parseRequestData (emailValid : String → Bool) (clean : String → String)
    (d : RequestDataInput) : Except (List String) ParsedRequestData :=
  match fieldErrors emailValid clean d with
  | [] =>
    .ok { property_id := d.property_id.getD "",
          description := clean (d.description.getD ""),
          email := d.email.getD "",
          phone := (match format_phone (d.phone.getD "") with
                    | .ok p => p
                    | .error _ => ""),
          urgent := d.urgent.getD false }
  | e :: tl => .error (e :: tl)

/-- Failure message returned by RequestValidator.validate_request: either
one of its literal strings or the rendering of a pydantic
ValidationError. -/
inductive PyMessage where
  | empty
  | text (s : String)
  | validationError (fields : List String)
deriving DecidableEq, Repr

/-- RequestValidator state (src/app/validators.py lines 56-76), with the
construction defaults max_requests=10, time_window=60. -/
structure RequestValidator where
  max_requests : Nat := 10
  time_window : Int := 60
  max_description_length : Nat := 1000
  request_times : List Int := []
deriving DecidableEq, Repr

/-- RequestValidator.check_rate_limit (src/app/validators.py lines
94-123): drop request times outside the window, refuse when the kept list
has reached max_requests, otherwise record the current time and allow. -/
def check_rate_limit (v : RequestValidator) (now : Int) : Bool × List Int :=
  let kept := List.filter (fun t => now - t < v.time_window) v.request_times
  if v.max_requests ≤ kept.length then (false, kept)
  else (true, kept ++ [now])

/-- RequestValidator.validate_request (src/app/validators.py lines
125-165): rate limit first, then the pydantic model, then the
urgent-requires-phone check; pydantic ValidationError is a ValueError, so
it is caught and rendered as the failure message. -/
def validate_request (emailValid : String → Bool) (clean : String → String)
    (v : RequestValidator) (now : Int) (d : RequestDataInput) :
    (Bool × PyMessage) × RequestValidator :=
  let rl := check_rate_limit v now
  let v := { v with request_times := rl.2 }
  if rl.1 = false then
    ((false, .text "Too many requests. Please try again later."), v)
  else
    match parseRequestData emailValid clean d with
    | .error errs => ((false, .validationError errs), v)
    | .ok rd =>
      if rd.urgent && rd.phone == "" then
        ((false, .text "Phone number required for urgent requests"), v)
      else
        ((true, .empty), v)

/-- Request id used by the concrete scenarios below. -/
def rid0 : String := "REQ-20250101-000000"

/-- A concrete in-memory request in a given status. -/
def mkReq (st : RequestStatus) : MaintenanceRequest :=
  { id := rid0,
    property_id := "123",
    description := "Water leak under kitchen sink",
    contact_email := "tenant@example.com",
    status := st }

/-- A concrete stored row in a given status. -/
def mkRec (st : RequestStatus) : DBRecord :=
  { property_id := "123",
    description := "Water leak under kitchen sink",
    status := st }

/-- A concrete kickoff behaviour (no tool calls, failing outcome); the
theorems about handle_maintenance_request hold for every behaviour. -/
def kickNone : KickoffBehavior := {}

/-- A classification backend response whose required keys are all present
but whose category is outside the closed enum. -/
def gardeningResp : ClassificationResponse :=
  { category := some "gardening", priority := some "low", estimated_hours := some 2 }

/-- Concrete system state: a request whose persisted status is
COMPLETED. -/
def sysCompleted : SysState :=
  { mem := mkReq RequestStatus.completed,
    db := [(rid0, mkRec RequestStatus.completed)] }

/-- Concrete well-formed submission used by the rate-limit witness. -/
def wellFormedInput : RequestDataInput :=
  { property_id := some "123",
    description := some "Water heater leaking badly",
    email := some "tenant@example.com",
    phone := some "1234567890" }

/-- Concrete submission with the phone field omitted and every other field
valid. -/
def noPhoneInput : RequestDataInput :=
  { property_id := some "123",
    description := some "Leaking faucet in kitchen",
    email := some "tenant@example.com" }

/-- Fetching after an update by the same id returns the updated row (or
nothing when no row matched), mirroring supabase update().eq(id, rid). -/
theorem db_fetch_one_update (db : DB) (rid : String) (f : DBRecord → DBRecord) :
    db_fetch_one (db_update db rid f) rid = Option.map f (db_fetch_one db rid) := by
  induction db with
  | nil => rfl
  | cons p tl ih =>
    by_cases h : p.1 = rid
    · simp [db_update, db_fetch_one, h]
    · simp [db_update, db_fetch_one, h, ih]

/-- Persisted status after a same-id update, as a function of the status
the update writes. -/
theorem fetch_update_status (db : DB) (rid : String) (g : DBRecord → DBRecord) :
    Option.map (fun r => r.status) (db_fetch_one (db_update db rid g) rid)
      = Option.map (fun r => (g r).status) (db_fetch_one db rid) := by
  rw [db_fetch_one_update]
  cases db_fetch_one db rid <;> rfl

/-- Lookup in a singleton active_requests map keyed by the request id. -/
theorem active_lookup_singleton (rid : String) (r : MaintenanceRequest) :
    active_lookup [(rid, r)] rid = some r := by
  simp [active_lookup]

/-- Updating the only entry of a singleton active_requests map. -/
theorem active_update_singleton (rid : String) (r q : MaintenanceRequest) :
    active_update [(rid, r)] rid q = [(rid, q)] := by
  simp [active_update]

/-- Evaluation of cancel_request on a singleton active map holding the
request itself: the guard rejects SCHEDULED and COMPLETED without
mutation; every other status is mutated to FAILED and still answered with
the failure envelope (the updated_at assignment raises). -/
theorem cancel_singleton (m : MaintenanceRequest) :
    cancel_request m.id [(m.id, m)]
      = if m.status = RequestStatus.scheduled ∨ m.status = RequestStatus.completed then
          { envelope := { success := false,
                          error := some "Cannot cancel request in current status" },
            active := [(m.id, m)] }
        else
          { envelope := { success := false,
                          error := some "Failed to cancel request",
                          details := some "MaintenanceRequest object has no field updated_at" },
            active := [(m.id, { m with status := RequestStatus.failed })] } := by
  unfold cancel_request
  rw [active_lookup_singleton]
  by_cases h : m.status = RequestStatus.scheduled ∨ m.status = RequestStatus.completed
  · simp [h]
  · simp [h, active_update_singleton, pydanticSetUpdatedAt, PyError.msg]

/-- Persisted status after writing FAILED to the tracked id: unchanged
when the row is absent, FAILED when it is present. -/
theorem dbStatus_after_failed_write (s s2 : SysState) (now : Int)
    (hid : s2.mem.id = s.mem.id)
    (hdb : s2.db = db_update s.db s.mem.id
        (fun r => { r with status := RequestStatus.failed, updated_at := some now })) :
    dbStatus s2 = dbStatus s ∨ dbStatus s2 = some RequestStatus.failed := by
  unfold dbStatus
  rw [hid, hdb, db_fetch_one_update]
  cases db_fetch_one s.db s.mem.id with
  | none => left; rfl
  | some r => right; rfl

/-- The store reached by complete_request is always the FAILED overwrite
of the addressed row (the completion flow always raises: the record-lookup
failure or the undefined completion_tool name). -/
theorem complete_request_db (now : Int) (rid : String) (db : DB) :
    (complete_request now rid db).db
      = db_update db rid
          (fun r => { r with status := RequestStatus.failed, updated_at := some now }) := by
  unfold complete_request complete_try
  cases db_fetch_one db rid with
  | none => rfl
  | some r => rfl

/-- Every public operation preserves the request id and moves each of the
persisted and the in-memory status either nowhere or into FAILED. -/
theorem stepOp_frame (op : AgentOp) (s : SysState) :
    (stepOp op s).mem.id = s.mem.id
    ∧ ((stepOp op s).mem.status = s.mem.status
        ∨ (stepOp op s).mem.status = RequestStatus.failed)
    ∧ (dbStatus (stepOp op s) = dbStatus s
        ∨ dbStatus (stepOp op s) = some RequestStatus.failed) := by
  cases op with
  | process now kick =>
    refine ⟨rfl, Or.inr rfl, ?_⟩
    exact dbStatus_after_failed_write s _ now rfl rfl
  | complete now =>
    refine ⟨rfl, Or.inl rfl, ?_⟩
    exact dbStatus_after_failed_write s _ now rfl (complete_request_db now s.mem.id s.db)
  | cancel =>
    have hc := cancel_singleton s.mem
    by_cases h : s.mem.status = RequestStatus.scheduled
        ∨ s.mem.status = RequestStatus.completed
    · rw [if_pos h] at hc
      refine ⟨?_, ?_, ?_⟩
      · show ((active_lookup (cancel_request s.mem.id [(s.mem.id, s.mem)]).active
            s.mem.id).getD s.mem).id = s.mem.id
        rw [hc]
        simp [active_lookup_singleton]
      · left
        show ((active_lookup (cancel_request s.mem.id [(s.mem.id, s.mem)]).active
            s.mem.id).getD s.mem).status = s.mem.status
        rw [hc]
        simp [active_lookup_singleton]
      · left
        unfold dbStatus
        show (db_fetch_one s.db ((active_lookup (cancel_request s.mem.id
            [(s.mem.id, s.mem)]).active s.mem.id).getD s.mem).id).map _ = _
        rw [hc]
        simp [active_lookup_singleton]
    · rw [if_neg h] at hc
      refine ⟨?_, ?_, ?_⟩
      · show ((active_lookup (cancel_request s.mem.id [(s.mem.id, s.mem)]).active
            s.mem.id).getD s.mem).id = s.mem.id
        rw [hc]
        simp [active_lookup_singleton]
      · right
        show ((active_lookup (cancel_request s.mem.id [(s.mem.id, s.mem)]).active
            s.mem.id).getD s.mem).status = RequestStatus.failed
        rw [hc]
        simp [active_lookup_singleton]
      · left
        unfold dbStatus
        show (db_fetch_one s.db ((active_lookup (cancel_request s.mem.id
            [(s.mem.id, s.mem)]).active s.mem.id).getD s.mem).id).map _ = _
        rw [hc]
        simp [active_lookup_singleton]

/-- C1 (amended).  Across every sequence of the public operations
(process, complete, cancel), the persisted status and the in-memory status
of a request each either stay unchanged or end at FAILED: the only status
change any operation ever makes is into FAILED (so FAILED is terminal up
to overwrites by itself), and the forward NEW to PROCESSING to SCHEDULED
to COMPLETED advances asserted by the specification are never persisted,
because every operation fails before committing them. -/
theorem c1_only_failed_transitions (ops : List AgentOp) (s : SysState) :
    (dbStatus (runOps ops s) = dbStatus s
      ∨ dbStatus (runOps ops s) = some RequestStatus.failed)
    ∧ ((runOps ops s).mem.status = s.mem.status
      ∨ (runOps ops s).mem.status = RequestStatus.failed) := by
  induction ops generalizing s with
  | nil => exact ⟨Or.inl rfl, Or.inl rfl⟩
  | cons op rest ih =>
    have hstep := stepOp_frame op s
    have hrest := ih (stepOp op s)
    constructor
    · rcases hrest.1 with h1 | h1
      · rcases hstep.2.2 with h2 | h2
        · exact Or.inl (h1.trans h2)
        · exact Or.inr (h1.trans h2)
      · exact Or.inr h1
    · rcases hrest.2 with h1 | h1
      · rcases hstep.2.1 with h2 | h2
        · exact Or.inl (h1.trans h2)
        · exact Or.inr (h1.trans h2)
      · exact Or.inr h1

/-- C1 counterexample: the claim as stated is false on the code — from a
request whose persisted status is COMPLETED (a terminal state by the
claim), one complete_request call moves the persisted status to FAILED, a
transition the claimed relation forbids. -/
theorem c1_counterexample :
    dbStatus sysCompleted = some RequestStatus.completed
    ∧ dbStatus (runOps [AgentOp.complete 5] sysCompleted) = some RequestStatus.failed
    ∧ specAllowed RequestStatus.completed RequestStatus.failed = false := by
  decide

/-- C2: the claim is contradicted by the code.  For every input and every
kickoff behaviour, handle_maintenance_request raises AttributeError on the
nonexistent Database.transaction method before anything else happens, so
its whole event trace is the single FAILED write of the except-handler: no
PROCESSING write is ever persisted and no tool is ever invoked, and the
call returns the failure envelope.  A crash mid-pipeline therefore leaves
a FAILED record, never the visibly in-flight PROCESSING record the claim
asserts. -/
theorem c2_failed_write_without_processing_or_tools (now : Int) (kick : KickoffBehavior)
    (req : MaintenanceRequest) (db : DB) :
    (handle_maintenance_request now kick req db).events
      = [Event.statusWrite req.id RequestStatus.failed]
    ∧ (handle_maintenance_request now kick req db).envelope.success = false :=
  ⟨rfl, rfl⟩

/-- C7: the claim is contradicted by the code.  No pipeline run ever
reaches SCHEDULED — with or without a cost-estimation failure — because
handle_maintenance_request fails on the missing Database.transaction
method before invoking any tool: for every kickoff behaviour the request
ends FAILED, the returned envelope reports failure, and the event trace
contains no tool invocation at all (in particular cost estimation never
runs and no graceful-degradation path exists). -/
theorem c7_no_run_reaches_scheduled (now : Int) (kick : KickoffBehavior)
    (req : MaintenanceRequest) (db : DB) :
    (handle_maintenance_request now kick req db).request.status = RequestStatus.failed
    ∧ (handle_maintenance_request now kick req db).envelope.success = false
    ∧ List.filter Event.isTool (handle_maintenance_request now kick req db).events = [] :=
  ⟨rfl, rfl, rfl⟩

/-- C3 (amended).  handle_maintenance_request performs no status
precondition check at all: called on a request in any status — in
particular a non-NEW one — it runs the same path as every call, returns
the failure envelope, and mutates the stored record, overwriting its
status with FAILED and its updated_at field; the record is not left
byte-for-byte unchanged and no idempotent rejection exists. -/
theorem c3_process_non_new_mutates (now : Int) (kick : KickoffBehavior)
    (req : MaintenanceRequest) (db : DB) (r : DBRecord)
    (hfound : db_fetch_one db req.id = some r)
    (_hstatus : req.status ≠ RequestStatus.new) :
    (handle_maintenance_request now kick req db).envelope.success = false
    ∧ db_fetch_one (handle_maintenance_request now kick req db).db req.id
        = some { r with status := RequestStatus.failed, updated_at := some now } := by
  refine ⟨rfl, ?_⟩
  have hdb : (handle_maintenance_request now kick req db).db
      = db_update db req.id
          (fun r => { r with status := RequestStatus.failed, updated_at := some now }) := rfl
  rw [hdb, db_fetch_one_update, hfound]
  rfl

/-- C3 witness: the amended theorem applied to a concrete PROCESSING
request stored under its own id. -/
theorem c3_witness :
    (db_fetch_one [(rid0, mkRec RequestStatus.processing)] (mkReq RequestStatus.processing).id
        = some (mkRec RequestStatus.processing)
      ∧ (mkReq RequestStatus.processing).status ≠ RequestStatus.new)
    ∧ ((handle_maintenance_request 7 kickNone (mkReq RequestStatus.processing)
          [(rid0, mkRec RequestStatus.processing)]).envelope.success = false
      ∧ db_fetch_one (handle_maintenance_request 7 kickNone (mkReq RequestStatus.processing)
            [(rid0, mkRec RequestStatus.processing)]).db (mkReq RequestStatus.processing).id
          = some { mkRec RequestStatus.processing with
                     status := RequestStatus.failed, updated_at := some 7 }) :=
  ⟨⟨by decide, by decide⟩,
   c3_process_non_new_mutates 7 kickNone (mkReq RequestStatus.processing)
     [(rid0, mkRec RequestStatus.processing)] (mkRec RequestStatus.processing)
     (by decide) (by decide)⟩

/-- C3 counterexample: the claim as stated is false on the code — for a
stored request whose status is PROCESSING (not NEW), one process call
leaves the stored record different from what it was, not byte-for-byte
unchanged. -/
theorem c3_counterexample :
    (mkReq RequestStatus.processing).status ≠ RequestStatus.new
    ∧ db_fetch_one (handle_maintenance_request 7 kickNone (mkReq RequestStatus.processing)
          [(rid0, mkRec RequestStatus.processing)]).db rid0
        ≠ db_fetch_one [(rid0, mkRec RequestStatus.processing)] rid0 := by
  decide

/-- C4 (amended).  complete_request performs no SCHEDULED precondition
check: called on a stored request in any non-SCHEDULED status it still
runs the completion flow, which always raises (the undefined
completion_tool name), and its except-handler overwrites the stored status
with FAILED and updated_at and returns the generic processing-failure
envelope; the record is mutated, not left unchanged. -/
theorem c4_complete_non_scheduled_mutates (now : Int) (rid : String) (db : DB) (r : DBRecord)
    (hfound : db_fetch_one db rid = some r)
    (_hstatus : r.status ≠ RequestStatus.scheduled) :
    (complete_request now rid db).envelope.success = false
    ∧ db_fetch_one (complete_request now rid db).db rid
        = some { r with status := RequestStatus.failed, updated_at := some now } := by
  constructor
  · unfold complete_request complete_try
    rw [hfound]
    rfl
  · rw [complete_request_db, db_fetch_one_update, hfound]
    rfl

/-- C4 witness: the amended theorem applied to a concrete NEW request
stored under its id. -/
theorem c4_witness :
    (db_fetch_one [(rid0, mkRec RequestStatus.new)] rid0 = some (mkRec RequestStatus.new)
      ∧ (mkRec RequestStatus.new).status ≠ RequestStatus.scheduled)
    ∧ ((complete_request 9 rid0 [(rid0, mkRec RequestStatus.new)]).envelope.success = false
      ∧ db_fetch_one (complete_request 9 rid0 [(rid0, mkRec RequestStatus.new)]).db rid0
          = some { mkRec RequestStatus.new with
                     status := RequestStatus.failed, updated_at := some 9 }) :=
  ⟨⟨by decide, by decide⟩,
   c4_complete_non_scheduled_mutates 9 rid0 [(rid0, mkRec RequestStatus.new)]
     (mkRec RequestStatus.new) (by decide) (by decide)⟩

/-- C4 counterexample: the claim as stated is false on the code — calling
complete_request on a stored request whose status is NEW (not SCHEDULED)
changes the stored record instead of leaving it completely unchanged. -/
theorem c4_counterexample :
    (mkRec RequestStatus.new).status ≠ RequestStatus.scheduled
    ∧ db_fetch_one (complete_request 9 rid0 [(rid0, mkRec RequestStatus.new)]).db rid0
        ≠ db_fetch_one [(rid0, mkRec RequestStatus.new)] rid0 := by
  decide

/-- C5 (amended).  The Classification tool validates only the presence of
the category, priority and estimated_hours keys in the parsed backend
response: a response missing one of them is turned into a failure, but a
present category or priority lying outside the closed enums is returned
unchanged inside a success payload — no enum-membership validation is
performed. -/
theorem c5_presence_only_validation (resp : ClassificationResponse) :
    classification_run resp = Except.ok resp
      ↔ (resp.category.isSome && resp.priority.isSome && resp.estimated_hours.isSome) = true := by
  by_cases h : (resp.category.isSome && resp.priority.isSome
      && resp.estimated_hours.isSome) = true
  · simp [classification_run, h]
  · simp [classification_run, h]

/-- C5 witness: the amended theorem applied to the concrete response with
all required keys present. -/
theorem c5_witness : classification_run gardeningResp = Except.ok gardeningResp :=
  (c5_presence_only_validation gardeningResp).mpr (by decide)

/-- C5 counterexample: the claim as stated is false on the code — a
backend response whose category is the out-of-enum string gardening is
returned as a success payload carrying that invalid value, not as a
failure. -/
theorem c5_counterexample :
    classification_run gardeningResp = Except.ok gardeningResp
    ∧ gardeningResp.category = some "gardening"
    ∧ "gardening" ∉ ISSUE_CATEGORIES := by
  refine ⟨rfl, rfl, ?_⟩
  decide

/-- C6: the claim is contradicted by the code.  On a request whose status
is NEW — a state the claim says is cancellable — cancel_request first
mutates the stored object's status to FAILED, then raises while assigning
the undeclared updated_at field of the crew.py pydantic model, and
therefore returns the failure envelope instead of success: cancellation
never succeeds, yet the request is still marked FAILED. -/
theorem c6_cancel_new_fails_yet_mutates :
    (cancel_request rid0 [(rid0, mkReq RequestStatus.new)]).envelope
      = { success := false,
          error := some "Failed to cancel request",
          details := some "MaintenanceRequest object has no field updated_at" }
    ∧ active_lookup (cancel_request rid0 [(rid0, mkReq RequestStatus.new)]).active rid0
      = some (mkReq RequestStatus.failed) := by
  decide

/-- C8: confirmed.  For every description the complexity multiplier
computed by the Cost Estimation tool is clamped into the closed interval
from one half to two, and the estimates returned by the tool are a pure
function of category, description and property type — two calls on the
same inputs yield the same result. -/
theorem c8_multiplier_bounded_and_deterministic
    (category description property_type : String) :
    (1/2 : ℚ) ≤ analyze_complexity description
    ∧ analyze_complexity description ≤ 2
    ∧ cost_estimation_run category description property_type
        = cost_estimation_run category description property_type := by
  refine ⟨?_, ?_, rfl⟩
  · exact le_max_left _ _
  · exact max_le (by norm_num) (min_le_right _ _)

/-- C9: the claim is contradicted by the code.  The validator schema
declares phone as a required field, so a submission with valid property
id, description and email but no phone is rejected with a pydantic
ValidationError (a missing-field error on phone) instead of being
accepted.  The external bleach.clean and email checks are instantiated
with behaviours matching the real libraries on this input (clean text
passes through bleach unchanged, the address is a valid email). -/
theorem c9_missing_phone_rejected :
    validate_request (fun e => e == "tenant@example.com") (fun s => s) {} 0 noPhoneInput
      = ((false, PyMessage.validationError ["phone: Field required"]),
         { request_times := [0] }) := by
  decide

/-- C10: confirmed.  With the default settings (max_requests = 10,
time_window = 60), whenever ten request times already lie inside the
60-second window before the current call — as after ten accepted
validation calls in that window, each of which appends its time — the next
validate_request call fails with the literal rate-limit message no matter
what data it carries and no matter how well-formed that data is. -/
theorem c10_rate_limited_rejected (emailValid : String → Bool) (clean : String → String)
    (times : List Int) (now : Int) (d : RequestDataInput)
    (hfull : 10 ≤ (List.filter (fun t => now - t < 60) times).length) :
    (validate_request emailValid clean { request_times := times } now d).1
      = (false, PyMessage.text "Too many requests. Please try again later.") := by
  unfold validate_request check_rate_limit
  simp [hfull]

/-- C10 witness: the theorem applied to a validator that has already
accepted ten calls at time zero, on a fully well-formed submission. -/
theorem c10_witness :
    10 ≤ (List.filter (fun t => (0 : Int) - t < 60) (List.replicate 10 (0 : Int))).length
    ∧ (validate_request (fun _ => true) (fun s => s)
          { request_times := List.replicate 10 0 } 0 wellFormedInput).1
        = (false, PyMessage.text "Too many requests. Please try again later.") :=
  ⟨by decide,
   c10_rate_limited_rejected (fun _ => true) (fun s => s)
     (List.replicate 10 0) 0 wellFormedInput (by decide)⟩

end PropMgmt
